import Mathlib

/-!
Shallow embedding of the OneDrive-Sync plugin (TypeScript sources:
`main.ts`, `src/clients/onedriveClient.ts`, `src/clients/onedriveAuth.ts`,
`src/clients/onedriveTypes.ts`) for checking its natural-language
specification.

Times are modelled as integers (milliseconds, like `Date.now()`), byte
counts as naturals, and network interaction is made explicit: each
function that performs a request takes the server response as an
argument (an oracle) and returns, besides its result, the observable
effects it produced (requests issued, notices shown, status updates).
-/

namespace OneDriveSync

/-! ### Data model (onedriveClient.ts, onedriveTypes.ts) -/

/-- `OneDriveConfig` from onedriveClient.ts (lines 10-20). -/
structure OneDriveConfig where
  clientId : String
  authority : String
  redirectUri : String
  accessToken : String
  refreshToken : String
  accessTokenExpiresAt : Int
  remoteBaseFolder : String
deriving DecidableEq, Repr

/-- `AuthSuccessResponse` from onedriveClient.ts (lines 23-31).
`refresh_token?` is optional, hence `Option`. -/
structure AuthSuccessResponse where
  token_type : String
  expires_in : Nat
  scope : String
  access_token : String
  refresh_token : Option String
deriving DecidableEq, Repr

/-- `AuthErrorResponse` from onedriveClient.ts (lines 33-37). -/
structure AuthErrorResponse where
  error : String
  error_description : String
deriving DecidableEq, Repr

/-- The token endpoint answers with either a success or an error body;
the code distinguishes them by the presence of the `error` field
(`"error" in result`), which the tag of this sum models. -/
inductive TokenResponse where
  | success (r : AuthSuccessResponse)
  | failure (r : AuthErrorResponse)
deriving DecidableEq, Repr

/-- Minimal view of a Graph `DriveItem`: the code only inspects the `id`
field of upload-chunk response bodies (`rjson.id`, line 255). -/
structure DriveItem where
  id : String
deriving DecidableEq, Repr

/-- `CHUNK_SIZE` from onedriveClient.ts line 42. -/
def CHUNK_SIZE : Nat := 5 * 1024 * 1024

/-! ### Token refresh: `OneDriveClient.getAccessToken` (lines 154-170)
combined with `refreshAccessToken` (lines 116-138). -/

/-- The ways `getAccessToken` can throw. -/
inductive AuthFailure where
  | noRefreshToken
  | refreshError (msg : String)
deriving DecidableEq, Repr

/-- Observable outcome of one `getAccessToken` call: the returned token
(or thrown error), the config after the call (the code mutates
`this.config` in place), and the number of HTTP requests actually sent
to the token endpoint. -/
structure GetTokenOutcome where
  result : Except AuthFailure String
  config : OneDriveConfig
  refreshRequests : Nat
deriving Repr

/-- Embedding of `getAccessToken` (onedriveClient.ts lines 154-170).
`now` is the `Date.now()` of line 155, `now2` the one of line 167, and
`resp` the token-endpoint response. Note line 119: `refreshAccessToken`
throws before issuing any request when the stored refresh token is
empty. -/
def getAccessToken (cfg : OneDriveConfig) (now now2 : Int)
    (resp : TokenResponse) : GetTokenOutcome :=
  if cfg.accessToken ≠ "" ∧ cfg.accessTokenExpiresAt > now then
    ⟨.ok cfg.accessToken, cfg, 0⟩
  else if cfg.refreshToken = "" then
    ⟨.error .noRefreshToken, cfg, 0⟩
  else
    match resp with
    | .failure e =>
        ⟨.error (.refreshError ("Refresh token error: " ++
            (if e.error_description ≠ "" then e.error_description else e.error))),
          cfg, 1⟩
    | .success s =>
        let expiresInMs : Int := (if s.expires_in = 0 then 3600 else s.expires_in) * 1000
        ⟨.ok s.access_token,
          { cfg with
            accessToken := s.access_token,
            refreshToken := s.refresh_token.getD "",
            accessTokenExpiresAt := now2 + expiresInMs - 120000 },
          1⟩

/-! ### Chunked upload: `OneDriveClient.uploadFile` (lines 200-265) -/

/-- The chunk loop of `uploadFile` (lines 237-259), as the list of
`(offset, chunkEnd)` pairs it PUTs, starting from a given offset.
The source `while (offset < fileSize)` loop does not terminate when
`C = 0`; the guard `0 < C` makes this embedding total (unreachable in
the source, which fixes `C = CHUNK_SIZE`). -/
def uploadChunkRanges (C S offset : Nat) : List (Nat × Nat) :=
  if h : offset < S ∧ 0 < C then
    let chunkEnd := min (offset + C) S
    (offset, chunkEnd) :: uploadChunkRanges C S chunkEnd
  else []
termination_by S - offset
decreasing_by
  have h1 : offset < min (offset + C) S := lt_min (by omega) h.1
  omega

/-- The `Content-Range` header of one chunk PUT (line 243). -/
def contentRangeHeader (offset chunkEnd S : Nat) : String :=
  "bytes " ++ toString offset ++ "-" ++ toString (chunkEnd - 1) ++ "/" ++ toString S

/-- The `Content-Range` headers carried by the chunk PUTs of one upload,
in request order. -/
def uploadChunkHeaders (C S : Nat) : List String :=
  (uploadChunkRanges C S 0).map (fun p => contentRangeHeader p.1 p.2 S)

/-- Server response to one chunk PUT: `ok` / `status` as in `fetch`,
`item = some it` when the body contains an item id (`rjson.id` truthy). -/
structure ChunkResponse where
  ok : Bool
  status : Nat
  item : Option DriveItem
deriving DecidableEq, Repr

/-- The ways the chunk loop and its postlude can throw. -/
inductive UploadError where
  | chunkHttp (status : Nat)
  | noFinalItem
deriving DecidableEq, Repr

/-- One iteration of the chunk loop body (lines 246-258): a non-2xx
response throws; a body with an id latches `finalItem`. An already
thrown error propagates unchanged (the loop has stopped). -/
def uploadChunkStep (respond : Nat × Nat → ChunkResponse)
    (acc : Except UploadError (Option DriveItem)) (r : Nat × Nat) :
    Except UploadError (Option DriveItem) :=
  match acc with
  | .error e => .error e
  | .ok finalItem =>
      let resp := respond r
      if resp.ok then
        .ok (match resp.item with
             | some it => some it
             | none => finalItem)
      else
        .error (.chunkHttp resp.status)

/-- The chunk phase of `uploadFile` (lines 232-264): run the loop over
the chunk ranges with `finalItem` initially `null`, then fail with
the final error (line 262) if no response ever carried an item. -/
def uploadFileChunks (C S : Nat) (respond : Nat × Nat → ChunkResponse) :
    Except UploadError DriveItem :=
  match (uploadChunkRanges C S 0).foldl (uploadChunkStep respond) (.ok none) with
  | .error e => .error e
  | .ok none => .error .noFinalItem
  | .ok (some it) => .ok it

/-! ### Local tree walker: `OneDrivePlugin.getAllFilesInFolder`
(main.ts lines 206-225) and the sync orchestrator `syncVault`
(main.ts lines 163-200). -/

/-- A vault entry as Obsidian hands it out: `TFile` or `TFolder`
(the code distinguishes them with `instanceof`). Only the path is
inspected by the code under study. -/
inductive FSEntry where
  | file (path : String)
  | dir (path : String) (children : List FSEntry)

/-- The `recurse` closure of `getAllFilesInFolder` (lines 210-219):
walk the folder children in order, pushing files and descending into
subfolders; folders themselves are never pushed. -/
def filesInChildren : List FSEntry → List String
  | [] => []
  | .file p :: rest => p :: filesInChildren rest
  | .dir _ ch :: rest => filesInChildren ch ++ filesInChildren rest

/-- Embedding of `getAllFilesInFolder` (main.ts lines 206-225).
`lookup` models `this.app.vault.getAbstractFileByPath`. A missing or
non-folder path yields the empty list (lines 221-224). -/
def getAllFilesInFolder (lookup : String → Option FSEntry)
    (folderPath : String) : List String :=
  match lookup folderPath with
  | some (.dir _ ch) => filesInChildren ch
  | _ => []

/-- The error surfaced by `syncVault` when the local root is missing or
not a folder (main.ts lines 176-180). -/
inductive LocalFSError where
  | noLocalFolder (path : String)
deriving DecidableEq, Repr

/-- The enumeration phase of `syncVault` (main.ts lines 174-183): the
guard of lines 176-180 turns a missing/non-folder root into an error;
otherwise the recursive walk of `getAllFilesInFolder` runs. -/
def enumerateLocalTree (lookup : String → Option FSEntry)
    (rootPath : String) : Except LocalFSError (List String) :=
  match lookup rootPath with
  | some (.dir _ _) => .ok (getAllFilesInFolder lookup rootPath)
  | _ => .error (.noLocalFolder rootPath)

/-- `PluginSettings` from main.ts (lines 10-15), extending the client
config with the plugin-only fields. -/
structure PluginSettings extends OneDriveConfig where
  localVaultFolder : String
  periodicSync : Bool
  syncIntervalMinutes : Int
deriving DecidableEq, Repr

/-- `OneDrivePlugin.isAuthenticated` (main.ts lines 125-127):
`!!accessToken && !!refreshToken` — both strings non-empty. -/
def isAuthenticated (s : PluginSettings) : Bool :=
  s.accessToken ≠ "" && s.refreshToken ≠ ""

/-- Observable effects of one `syncVault` call: the notices shown, the
status-bar updates in order, and the `relativePath` arguments passed to
`client.uploadFile`, in order. Every remote request `syncVault` can
cause (token refresh, session creation, chunk PUT) happens inside one
of those `uploadFile` calls, so an empty `uploadCalls` list means no
remote traffic at all. -/
structure SyncOutcome where
  notices : List String
  statusUpdates : List String
  uploadCalls : List String
deriving DecidableEq, Repr

/-- The per-file upload loop of `syncVault` (lines 186-191): jobs run
strictly sequentially; the first `uploadFile` throw aborts the loop
(the exception escapes to the surrounding `try`). Returns the
`relativePath`s actually passed to `uploadFile` and whether the loop
finished without a throw. -/
def runUploadLoop (uploadOk : String → Bool) : List String → List String × Bool
  | [] => ([], true)
  | p :: ps =>
      if uploadOk p then
        let (rest, ok) := runUploadLoop uploadOk ps
        (p :: rest, ok)
      else
        ([p], false)

/-- The `relativePath` computation of line 188:
`file.path.substring(localFolderPath.length + 1)`. -/
def relativePathOf (localFolderPath filePath : String) : String :=
  ⟨filePath.toList.drop (localFolderPath.length + 1)⟩

/-- Embedding of `syncVault` (main.ts lines 163-200). `lookup` models
the vault, `uploadOk p` tells whether the `uploadFile` call for
relative path `p` succeeds (a `false` models a throw, caught by the
`catch` of lines 195-199). -/
def syncVault (s : PluginSettings) (lookup : String → Option FSEntry)
    (uploadOk : String → Bool) : SyncOutcome :=
  if ¬ isAuthenticated s then
    ⟨["No estás autenticado en OneDrive."], [], []⟩
  else
    match lookup s.localVaultFolder with
    | some (.dir _ _) =>
        let allFiles := getAllFilesInFolder lookup s.localVaultFolder
        let rels := allFiles.map (relativePathOf s.localVaultFolder)
        let (attempted, ok) := runUploadLoop uploadOk rels
        if ok then
          ⟨["Sync completado. Subidos " ++ toString allFiles.length ++ " archivos."],
            ["Syncing...", "Idle"], attempted⟩
        else
          ⟨["Error al sincronizar con OneDrive. Ver consola."],
            ["Syncing...", "Error"], attempted⟩
    | _ =>
        ⟨["Carpeta local '" ++ s.localVaultFolder ++ "' no existe en el Vault."],
          ["Syncing...", "Error: no local folder"], []⟩

/-! ### Remote listing: `OneDriveClient.listRemoteFolder` (lines 175-195) -/

/-- The parsed body of a 2xx listing response:
`JSON.parse(respText) as { value?: DriveItem[] }` (line 193). -/
structure ListEnvelope where
  value : Option (List DriveItem)
deriving DecidableEq, Repr

/-- The folder-to-path resolution of lines 178-182. -/
def listFolderPath (remoteBaseFolder : String) : String :=
  if remoteBaseFolder ≠ "" then
    "/drive/root:/" ++ remoteBaseFolder ++ ":/children"
  else
    "/drive/root/children"

/-- The result `listRemoteFolder` returns for a 2xx response with the
given parsed body: `data.value ?? []` (line 194). -/
def listRemoteFolder (_cfg : OneDriveConfig) (body : ListEnvelope) : List DriveItem :=
  body.value.getD []

/-! ### onedriveAuth.ts / onedriveTypes.ts -/

/-- `OAUTH2_FORCE_EXPIRE_MILLISECONDS` from onedriveTypes.ts. -/
def OAUTH2_FORCE_EXPIRE_MILLISECONDS : Int := 1000 * 60 * 60 * 24 * 80

/-- The fields of `OnedriveFullConfig` (onedriveTypes.ts) that
`setConfigBySuccessfulAuthInplace` touches, plus the rest it carries. -/
structure OnedriveFullConfig where
  accessToken : String
  clientID : String
  authority : String
  refreshToken : String
  accessTokenExpiresInSeconds : Nat
  accessTokenExpiresAtTime : Int
  deltaLink : String
  username : String
  credentialsShouldBeDeletedAtTime : Int
deriving DecidableEq, Repr

/-- Embedding of `setConfigBySuccessfulAuthInplace`
(onedriveAuth.ts lines 122-140); `now` stands for the two `Date.now()`
calls. `authRes.refresh_token || ""` maps an absent (or empty) token
to the empty string. -/
def setConfigBySuccessfulAuthInplace (config : OnedriveFullConfig)
    (authRes : AuthSuccessResponse) (now : Int) : OnedriveFullConfig :=
  { config with
    accessToken := authRes.access_token,
    accessTokenExpiresAtTime := now + authRes.expires_in * 1000 - 5 * 60 * 1000,
    accessTokenExpiresInSeconds := authRes.expires_in,
    refreshToken := authRes.refresh_token.getD "",
    credentialsShouldBeDeletedAtTime := now + OAUTH2_FORCE_EXPIRE_MILLISECONDS }

/-! ### Lemmas about the chunk loop -/

/-- Closed form of the chunk loop: starting at `offset`, the loop emits
`ceil((S - offset)/C)` ranges, the k-th being
`[offset + kC, min (offset + (k+1)C) S)`. -/
theorem uploadChunkRanges_eq (C S : Nat) (hC : 0 < C) :
    ∀ offset, uploadChunkRanges C S offset =
      (List.range ((S - offset + C - 1) / C)).map
        (fun k => (offset + k * C, min (offset + (k + 1) * C) S)) := by
  have main : ∀ d offset, S - offset ≤ d →
      uploadChunkRanges C S offset =
        (List.range ((S - offset + C - 1) / C)).map
          (fun k => (offset + k * C, min (offset + (k + 1) * C) S)) := by
    intro d
    induction d with
    | zero =>
        intro offset h0
        rw [uploadChunkRanges, dif_neg (by omega)]
        have hz : (S - offset + C - 1) / C = 0 := Nat.div_eq_of_lt (by omega)
        rw [hz]
        simp
    | succ d ih =>
        intro offset hle
        by_cases hlt : offset < S
        · rw [uploadChunkRanges, dif_pos ⟨hlt, hC⟩]
          dsimp only
          have he1 : offset < min (offset + C) S := lt_min (by omega) hlt
          have he2 : min (offset + C) S ≤ S := min_le_right _ _
          rw [ih (min (offset + C) S) (by omega)]
          by_cases hA : offset + C ≤ S
          · have heA : min (offset + C) S = offset + C := min_eq_left hA
            have hn : (S - offset + C - 1) / C = (S - (offset + C) + C - 1) / C + 1 := by
              have h1 : S - offset + C - 1 = (S - (offset + C) + C - 1) + C := by omega
              rw [h1, Nat.add_div_right _ hC]
            rw [heA, hn, List.range_succ_eq_map, List.map_cons, List.map_map]
            congr 1
            · simp [hA]
            · apply List.map_congr_left
              intro k _
              have e1 : offset + C + k * C = offset + (k + 1) * C := by ring
              have e2 : offset + C + (k + 1) * C = offset + (k + 1 + 1) * C := by ring
              simp only [Function.comp_apply]
              rw [e1, e2]
          · have heB : min (offset + C) S = S := min_eq_right (by omega)
            have hm : (S - min (offset + C) S + C - 1) / C = 0 := by
              rw [heB]
              exact Nat.div_eq_of_lt (by omega)
            have hn : (S - offset + C - 1) / C = 1 := by
              have h1 : S - offset + C - 1 = (S - offset - 1) + C := by omega
              rw [h1, Nat.add_div_right _ hC, Nat.div_eq_of_lt (by omega)]
            rw [hm, hn, heB]
            have h0 : List.range 1 = [0] := rfl
            rw [h0]
            simp only [List.range_zero, List.map_nil, List.map_cons]
            have hminS : min (offset + C) S = S := Nat.min_eq_right (by omega)
            simp [hminS]
        · rw [uploadChunkRanges, dif_neg (by omega)]
          have hz : (S - offset + C - 1) / C = 0 := Nat.div_eq_of_lt (by omega)
          rw [hz]
          simp
  exact fun offset => main (S - offset) offset le_rfl

/-- Specialization to the initial call (offset 0). -/
theorem uploadChunkRanges_zero (C S : Nat) (hC : 0 < C) :
    uploadChunkRanges C S 0 =
      (List.range ((S + C - 1) / C)).map
        (fun k => (k * C, min ((k + 1) * C) S)) := by
  have h := uploadChunkRanges_eq C S hC 0
  simpa using h

/-- Every k below the chunk count starts its range strictly inside the
buffer. -/
theorem chunk_start_lt (C S k : Nat) (hC : 0 < C)
    (hk : k < (S + C - 1) / C) : k * C < S := by
  have h1 : ((S + C - 1) / C) * C ≤ S + C - 1 := Nat.div_mul_le_self _ _
  have h2 : (k + 1) * C ≤ ((S + C - 1) / C) * C := Nat.mul_le_mul_right _ hk
  have h3 : (k + 1) * C = k * C + C := by ring
  omega

/-- C1: For every byte buffer of size S > 0 and chunk size C > 0, the
chunk loop of `uploadFile` issues exactly ceil(S/C) chunk PUT requests;
the k-th carries the half-open byte range [kC, min((k+1)C, S)) — so the
ranges are [0,C-1], [C,2C-1], ..., ending at S-1, in increasing offset
order, every range nonempty, consecutive ranges adjacent (no gaps, no
overlaps), covering [0,S); and the k-th request carries the header
"bytes start-end/S" with end = min((k+1)C, S) - 1 and total = S. -/
theorem uploadFile_chunk_protocol (S C : Nat) (hS : 0 < S) (hC : 0 < C) :
    (uploadChunkRanges C S 0).length = (S + C - 1) / C
    ∧ uploadChunkRanges C S 0 =
        (List.range ((S + C - 1) / C)).map (fun k => (k * C, min ((k + 1) * C) S))
    ∧ uploadChunkHeaders C S =
        (List.range ((S + C - 1) / C)).map
          (fun k => "bytes " ++ toString (k * C) ++ "-" ++
            toString (min ((k + 1) * C) S - 1) ++ "/" ++ toString S)
    ∧ (∀ r ∈ uploadChunkRanges C S 0, r.1 < r.2)
    ∧ List.Chain' (fun r s => r.2 = s.1) (uploadChunkRanges C S 0)
    ∧ (∀ b, b < S → ∃ r ∈ uploadChunkRanges C S 0, r.1 ≤ b ∧ b < r.2) := by
  have hlist := uploadChunkRanges_zero C S hC
  have hn1 : 1 ≤ (S + C - 1) / C := by
    rw [Nat.one_le_div_iff hC]
    omega
  refine ⟨?_, hlist, ?_, ?_, ?_, ?_⟩
  · rw [hlist]
    simp
  · rw [uploadChunkHeaders, hlist, List.map_map]
    apply List.map_congr_left
    intro k _
    simp [contentRangeHeader]
  · intro r hr
    rw [hlist] at hr
    obtain ⟨k, hk, rfl⟩ := List.mem_map.1 hr
    have hkS : k * C < S := chunk_start_lt C S k hC (List.mem_range.1 hk)
    have hkC : k * C < (k + 1) * C := by
      have : (k + 1) * C = k * C + C := by ring
      omega
    exact lt_min hkC hkS
  · rw [hlist]
    rw [List.chain'_map]
    obtain ⟨m, hm⟩ : ∃ m, (S + C - 1) / C = m + 1 := ⟨(S + C - 1) / C - 1, by omega⟩
    rw [hm]
    rw [List.chain'_range_succ]
    intro k hk
    have hkS : (k + 1) * C < S := by
      apply chunk_start_lt C S (k + 1) hC
      omega
    simp [Nat.min_eq_left (le_of_lt hkS)]
  · intro b hb
    rw [hlist]
    refine ⟨(b / C * C, min ((b / C + 1) * C) S), ?_, ?_, ?_⟩
    · apply List.mem_map.2
      refine ⟨b / C, List.mem_range.2 ?_, rfl⟩
      have h1 : b / C ≤ (S - 1) / C := Nat.div_le_div_right (by omega)
      have h2 : (S + C - 1) / C = (S - 1) / C + 1 := by
        have : S + C - 1 = (S - 1) + C := by omega
        rw [this, Nat.add_div_right _ hC]
      omega
    · exact Nat.div_mul_le_self b C
    · have hdm := Nat.div_add_mod b C
      have hmod : b % C < C := Nat.mod_lt b hC
      have hbq : b < (b / C + 1) * C := by
        have : (b / C + 1) * C = C * (b / C) + C := by ring
        omega
      exact lt_min hbq hb

/-- Witness for C1 at S = 12, C = 5: three chunks 0-4, 5-9, 10-11. -/
theorem uploadFile_chunk_protocol_witness :
    0 < 12 ∧ 0 < 5
    ∧ (uploadChunkRanges 5 12 0).length = 3
    ∧ uploadChunkHeaders 5 12 = ["bytes 0-4/12", "bytes 5-9/12", "bytes 10-11/12"] :=
  ⟨by decide, by decide,
    by
      have h := (uploadFile_chunk_protocol 12 5 (by decide) (by decide)).1
      simpa using h,
    by
      have h := (uploadFile_chunk_protocol 12 5 (by decide) (by decide)).2.2.1
      rw [h]
      rfl⟩

/-- C2: the claim (and the spec) require a single empty-range chunk
request for a size-0 buffer, but the `while (offset < fileSize)` loop
never runs for `fileSize = 0`: the code issues zero chunk PUT requests
and then throws the no-final-item error, so a 0-byte upload can never
complete — contradicting the stated contract of the function itself, namely of uploading a
buffer of arbitrary size. -/
theorem uploadFile_empty_buffer_no_request :
    uploadChunkRanges CHUNK_SIZE 0 0 = []
    ∧ uploadFileChunks CHUNK_SIZE 0 (fun _ => ⟨true, 200, some ⟨"item1"⟩⟩) =
        .error .noFinalItem := by
  have h : uploadChunkRanges CHUNK_SIZE 0 0 = [] := by
    rw [uploadChunkRanges]
    simp
  refine ⟨h, ?_⟩
  rw [uploadFileChunks, h]
  rfl

/-- If every chunk response is 2xx and carries no item id, the
loop variable `finalItem` stays `null` through the whole fold. -/
theorem uploadFold_stays_none (respond : Nat × Nat → ChunkResponse)
    (l : List (Nat × Nat))
    (h : ∀ r ∈ l, (respond r).ok = true ∧ (respond r).item = none) :
    l.foldl (uploadChunkStep respond) (.ok none) = .ok none := by
  induction l with
  | nil => rfl
  | cons r rest ih =>
      have hr := h r (List.mem_cons_self r rest)
      rw [List.foldl_cons]
      have hstep : uploadChunkStep respond (.ok none) r = .ok none := by
        rw [uploadChunkStep]
        simp [hr.1, hr.2]
      rw [hstep]
      exact ih (fun x hx => h x (List.mem_cons_of_mem r hx))

/-- C6: when every chunk response of an upload is 2xx but none carries
the remote item identifier (so in particular the final one does not),
`uploadFile` fails with the no-final-item error instead of returning a
DriveItem. -/
theorem uploadFile_no_finalize (C S : Nat) (respond : Nat × Nat → ChunkResponse)
    (h : ∀ r ∈ uploadChunkRanges C S 0,
      (respond r).ok = true ∧ (respond r).item = none) :
    uploadFileChunks C S respond = .error .noFinalItem := by
  rw [uploadFileChunks, uploadFold_stays_none respond _ h]

/-- Witness for C6: a 3-chunk upload whose responses are all `202
Accepted` with empty bodies ends in the no-final-item error. -/
theorem uploadFile_no_finalize_witness :
    uploadFileChunks 5 12 (fun _ => ⟨true, 202, none⟩) = .error .noFinalItem :=
  uploadFile_no_finalize 5 12 _ (fun _ _ => ⟨rfl, rfl⟩)

/-- C3 is false as stated: with an empty cached access token and an
expiry still in the future (now = 0 < 1000 = accessTokenExpiresAt) the
code performs a refresh request, while the claim demands zero refresh
requests whenever now < accessTokenExpiresAt. -/
theorem getAccessToken_refresh_despite_future_expiry :
    (0 : Int) < (1000 : Int)
    ∧ (getAccessToken
        { clientId := "c", authority := "a", redirectUri := "r",
          accessToken := "", refreshToken := "rt",
          accessTokenExpiresAt := 1000, remoteBaseFolder := "" }
        0 0
        (.success ⟨"Bearer", 3600, "s", "newAT", some "newRT"⟩)).refreshRequests = 1 ∧
    (1 : Nat) ≠ 0 :=
  ⟨by decide, rfl, by decide⟩

/-- C3 amended: `getAccessToken` issues exactly one refresh-token
request when the cached access token is empty or now >=
accessTokenExpiresAt, provided the stored refresh token is non-empty
(with an empty refresh token it fails before issuing any request); it
issues zero refresh requests otherwise and returns the cached access
token with the credential unchanged. -/
theorem getAccessToken_refresh_characterization (cfg : OneDriveConfig)
    (now now2 : Int) (resp : TokenResponse) :
    (getAccessToken cfg now now2 resp).refreshRequests =
      (if (cfg.accessToken = "" ∨ cfg.accessTokenExpiresAt ≤ now)
          ∧ cfg.refreshToken ≠ "" then 1 else 0)
    ∧ (cfg.accessToken ≠ "" ∧ now < cfg.accessTokenExpiresAt →
        (getAccessToken cfg now now2 resp).result = .ok cfg.accessToken
        ∧ (getAccessToken cfg now now2 resp).config = cfg) := by
  constructor
  · rw [getAccessToken.eq_def]
    by_cases h1 : cfg.accessToken ≠ "" ∧ cfg.accessTokenExpiresAt > now
    · rw [if_pos h1, if_neg]
      rintro ⟨hor, -⟩
      rcases hor with he | hle
      · exact h1.1 he
      · exact absurd h1.2 (not_lt.2 hle)
    · rw [if_neg h1]
      by_cases h2 : cfg.refreshToken = ""
      · rw [if_pos h2, if_neg]
        rintro ⟨-, hne⟩
        exact hne h2
      · rw [if_neg h2, if_pos]
        · cases resp <;> rfl
        · refine ⟨?_, h2⟩
          rcases not_and_or.1 h1 with h | h
          · exact Or.inl (not_not.1 h)
          · exact Or.inr (not_lt.1 h)
  · rintro ⟨ha, hlt⟩
    rw [getAccessToken.eq_def, if_pos ⟨ha, hlt⟩]
    exact ⟨rfl, rfl⟩

/-- Witness for the amended C3: a valid cached token ("tok", expiring at
1000 > now = 5) triggers no request and comes back unchanged. -/
theorem getAccessToken_refresh_characterization_witness :
    (getAccessToken
      { clientId := "c", authority := "a", redirectUri := "r",
        accessToken := "tok", refreshToken := "rt",
        accessTokenExpiresAt := 1000, remoteBaseFolder := "" }
      5 5 (.failure ⟨"e", "d"⟩)).refreshRequests = 0
    ∧ (getAccessToken
        { clientId := "c", authority := "a", redirectUri := "r",
          accessToken := "tok", refreshToken := "rt",
          accessTokenExpiresAt := 1000, remoteBaseFolder := "" }
        5 5 (.failure ⟨"e", "d"⟩)).result = .ok "tok" := by
  have h := getAccessToken_refresh_characterization
    { clientId := "c", authority := "a", redirectUri := "r",
      accessToken := "tok", refreshToken := "rt",
      accessTokenExpiresAt := 1000, remoteBaseFolder := "" }
    5 5 (.failure ⟨"e", "d"⟩)
  refine ⟨?_, (h.2 ⟨by decide, by decide⟩).1⟩
  rw [h.1, if_neg]
  rintro ⟨hor, -⟩
  rcases hor with he | hle
  · exact absurd he (by decide)
  · exact absurd hle (by decide)

/-- C4: when the token endpoint answers a refresh with an error body,
`getAccessToken` throws the refresh error carrying the remote
description (the remote error code when the description is empty) and
leaves every field of the stored credential unchanged. -/
theorem getAccessToken_error_no_mutation (cfg : OneDriveConfig)
    (now now2 : Int) (e : AuthErrorResponse)
    (hmiss : cfg.accessToken = "" ∨ cfg.accessTokenExpiresAt ≤ now)
    (hrt : cfg.refreshToken ≠ "") :
    (getAccessToken cfg now now2 (.failure e)).result =
      .error (.refreshError ("Refresh token error: " ++
        (if e.error_description ≠ "" then e.error_description else e.error)))
    ∧ (getAccessToken cfg now now2 (.failure e)).config = cfg := by
  rw [getAccessToken, if_neg, if_neg hrt]
  · exact ⟨rfl, rfl⟩
  · rintro ⟨hne, hgt⟩
    rcases hmiss with he | hle
    · exact hne he
    · exact absurd hgt (not_lt.2 hle)

/-- Witness for C4: an expired credential plus an `invalid_grant` error
response yields the error and an unchanged config. -/
theorem getAccessToken_error_no_mutation_witness :
    ((0 : Int) ≤ (10 : Int))
    ∧ (getAccessToken
        { clientId := "c", authority := "a", redirectUri := "r",
          accessToken := "tok", refreshToken := "rt",
          accessTokenExpiresAt := 0, remoteBaseFolder := "" }
        10 10 (.failure ⟨"invalid_grant", "token revoked"⟩)).result =
        .error (.refreshError "Refresh token error: token revoked")
    ∧ (getAccessToken
        { clientId := "c", authority := "a", redirectUri := "r",
          accessToken := "tok", refreshToken := "rt",
          accessTokenExpiresAt := 0, remoteBaseFolder := "" }
        10 10 (.failure ⟨"invalid_grant", "token revoked"⟩)).config =
        { clientId := "c", authority := "a", redirectUri := "r",
          accessToken := "tok", refreshToken := "rt",
          accessTokenExpiresAt := 0, remoteBaseFolder := "" } := by
  have h := getAccessToken_error_no_mutation
    { clientId := "c", authority := "a", redirectUri := "r",
      accessToken := "tok", refreshToken := "rt",
      accessTokenExpiresAt := 0, remoteBaseFolder := "" }
    10 10 ⟨"invalid_grant", "token revoked"⟩
    (Or.inr (by decide)) (by decide)
  refine ⟨by decide, ?_, h.2⟩
  rw [h.1]
  rfl

/-- C5 is false as stated: a successful refresh whose response omits
`refresh_token` sets the stored refresh token to the empty string
(`result.refresh_token ?? ""`), not to its previous value "oldRT"; the
auth helper `setConfigBySuccessfulAuthInplace` behaves the same
(`authRes.refresh_token || ""`). -/
theorem refreshToken_cleared_not_kept :
    (getAccessToken
        { clientId := "c", authority := "a", redirectUri := "r",
          accessToken := "", refreshToken := "oldRT",
          accessTokenExpiresAt := 0, remoteBaseFolder := "" }
        10 10 (.success ⟨"Bearer", 3600, "s", "newAT", none⟩)).config.refreshToken = ""
    ∧ (setConfigBySuccessfulAuthInplace
        ⟨"at", "cid", "auth", "oldRT", 0, 0, "", "", 0⟩
        ⟨"Bearer", 3600, "s", "newAT", none⟩ 10).refreshToken = ""
    ∧ ("" : String) ≠ "oldRT" :=
  ⟨rfl, rfl, by decide⟩

/-- C5 amended: on every successful token refresh where the server
response omits `refresh_token`, the stored refreshToken is set to the
empty string (cleared), not kept at its previous value; the same holds
for `setConfigBySuccessfulAuthInplace`. -/
theorem refreshToken_cleared_on_omitted (cfg : OneDriveConfig)
    (now now2 : Int) (s : AuthSuccessResponse)
    (hmiss : cfg.accessToken = "" ∨ cfg.accessTokenExpiresAt ≤ now)
    (hrt : cfg.refreshToken ≠ "")
    (hnone : s.refresh_token = none) :
    (getAccessToken cfg now now2 (.success s)).config.refreshToken = ""
    ∧ ∀ (fc : OnedriveFullConfig) (now3 : Int),
        (setConfigBySuccessfulAuthInplace fc s now3).refreshToken = "" := by
  constructor
  · rw [getAccessToken, if_neg, if_neg hrt]
    · simp [hnone]
    · rintro ⟨hne, hgt⟩
      rcases hmiss with he | hle
      · exact hne he
      · exact absurd hgt (not_lt.2 hle)
  · intro fc now3
    rw [setConfigBySuccessfulAuthInplace]
    simp [hnone]

/-- Witness for the amended C5 at a concrete expired credential and a
rotation-free success response. -/
theorem refreshToken_cleared_on_omitted_witness :
    (getAccessToken
        { clientId := "c", authority := "a", redirectUri := "r",
          accessToken := "", refreshToken := "oldRT",
          accessTokenExpiresAt := 0, remoteBaseFolder := "" }
        10 10 (.success ⟨"Bearer", 3600, "s", "newAT", none⟩)).config.refreshToken = ""
    ∧ (setConfigBySuccessfulAuthInplace
        ⟨"at", "cid", "auth", "oldRT", 0, 0, "", "", 0⟩
        ⟨"Bearer", 3600, "s", "newAT", none⟩ 10).refreshToken = "" := by
  have h := refreshToken_cleared_on_omitted
    { clientId := "c", authority := "a", redirectUri := "r",
      accessToken := "", refreshToken := "oldRT",
      accessTokenExpiresAt := 0, remoteBaseFolder := "" }
    10 10 ⟨"Bearer", 3600, "s", "newAT", none⟩
    (Or.inl rfl) (by decide) rfl
  exact ⟨h.1, h.2 ⟨"at", "cid", "auth", "oldRT", 0, 0, "", "", 0⟩ 10⟩

/-- C7: when either token is the empty string, `syncVault` only shows
the unauthenticated notice and returns: no `uploadFile` call is made
(hence no token refresh, session creation or chunk PUT, since all
remote traffic of `syncVault` happens inside `uploadFile`), and the
status bar is never set to "Syncing...". -/
theorem syncVault_unauthenticated (s : PluginSettings)
    (lookup : String → Option FSEntry) (uploadOk : String → Bool)
    (h : s.accessToken = "" ∨ s.refreshToken = "") :
    (syncVault s lookup uploadOk).uploadCalls = []
    ∧ (syncVault s lookup uploadOk).statusUpdates = []
    ∧ "Syncing..." ∉ (syncVault s lookup uploadOk).statusUpdates
    ∧ (syncVault s lookup uploadOk).notices = ["No estás autenticado en OneDrive."] := by
  have hauth : ¬ isAuthenticated s = true := by
    rcases h with h | h <;> simp [isAuthenticated, h]
  rw [syncVault, if_pos (by simpa using hauth)]
  refine ⟨rfl, rfl, ?_, rfl⟩
  simp

/-- Witness for C7: settings with an empty access token. -/
theorem syncVault_unauthenticated_witness :
    (syncVault
      ⟨{ clientId := "c", authority := "a", redirectUri := "r",
         accessToken := "", refreshToken := "rt",
         accessTokenExpiresAt := 0, remoteBaseFolder := "" },
        "MyLocalVault", false, 5⟩
      (fun _ => none) (fun _ => true)).uploadCalls = []
    ∧ (syncVault
        ⟨{ clientId := "c", authority := "a", redirectUri := "r",
           accessToken := "", refreshToken := "rt",
           accessTokenExpiresAt := 0, remoteBaseFolder := "" },
          "MyLocalVault", false, 5⟩
        (fun _ => none) (fun _ => true)).statusUpdates = [] := by
  have h := syncVault_unauthenticated
    ⟨{ clientId := "c", authority := "a", redirectUri := "r",
       accessToken := "", refreshToken := "rt",
       accessTokenExpiresAt := 0, remoteBaseFolder := "" },
      "MyLocalVault", false, 5⟩
    (fun _ => none) (fun _ => true) (Or.inl rfl)
  exact ⟨h.1, h.2.1⟩

/-- C8: the enumeration phase of a sync fails with the no-local-folder
error when the root path is missing or is a plain file, and returns an
empty list (no error) when the root is an existing directory with no
children. -/
theorem enumerate_root_validation (lookup : String → Option FSEntry)
    (root : String) :
    (lookup root = none →
      enumerateLocalTree lookup root = .error (.noLocalFolder root))
    ∧ (∀ p, lookup root = some (.file p) →
        enumerateLocalTree lookup root = .error (.noLocalFolder root))
    ∧ (∀ p, lookup root = some (.dir p []) →
        enumerateLocalTree lookup root = .ok []) := by
  refine ⟨?_, ?_, ?_⟩
  · intro h
    rw [enumerateLocalTree, h]
  · intro p h
    rw [enumerateLocalTree, h]
  · intro p h
    rw [enumerateLocalTree, h, getAllFilesInFolder, h]
    simp [filesInChildren]

/-- Witness for C8 at three concrete vaults: an empty vault, a vault
where the root path is a file, and a vault whose root is an empty
directory. -/
theorem enumerate_root_validation_witness :
    enumerateLocalTree (fun _ => none) "root" = .error (.noLocalFolder "root")
    ∧ enumerateLocalTree
        (fun s => if s = "root" then some (.file "root") else none) "root" =
        .error (.noLocalFolder "root")
    ∧ enumerateLocalTree
        (fun s => if s = "root" then some (.dir "root" []) else none) "root" =
        .ok [] := by
  refine ⟨(enumerate_root_validation (fun _ => none) "root").1 rfl,
    (enumerate_root_validation _ "root").2.1 "root" (by simp),
    (enumerate_root_validation _ "root").2.2 "root" (by simp)⟩

/-- C10: a 2xx listing response whose body lacks the `value` field makes
`listRemoteFolder` return the empty list — the same public result as an
empty folder (`value: []`) — rather than fail (the function is total). -/
theorem listRemoteFolder_missing_value (cfg : OneDriveConfig) :
    listRemoteFolder cfg ⟨none⟩ = []
    ∧ listRemoteFolder cfg ⟨none⟩ = listRemoteFolder cfg ⟨some []⟩ :=
  ⟨rfl, rfl⟩

/-- Number of file nodes carrying path `q` in a forest: the
specification-side measure against which the walker output is
compared (directory nodes are never counted). -/
def fileNodeCount (q : String) : List FSEntry → Nat
  | [] => 0
  | .file p :: rest => (if p = q then 1 else 0) + fileNodeCount q rest
  | .dir _ ch :: rest => fileNodeCount q ch + fileNodeCount q rest

/-- The walker emits each path exactly as many times as file nodes carry
it — so every regular file exactly once (under distinct paths) and
directory entries never. -/
theorem count_filesInChildren (q : String) (l : List FSEntry) :
    (filesInChildren l).count q = fileNodeCount q l := by
  induction l using filesInChildren.induct with
  | case1 => simp [filesInChildren, fileNodeCount]
  | case2 p rest ih =>
      rw [filesInChildren, fileNodeCount, List.count_cons, ih]
      by_cases h : p = q <;> simp [h, Nat.add_comm]
  | case3 d ch rest ih1 ih2 =>
      rw [filesInChildren, fileNodeCount, List.count_append, ih1, ih2]

/-- The example vault of the spec: a root folder containing `a.md`, a
subfolder `sub` containing `b.md`, and an empty subfolder. -/
def exampleVault : FSEntry :=
  .dir "root"
    [.file "root/a.md",
     .dir "root/sub" [.file "root/sub/b.md"],
     .dir "root/empty" []]

/-- Vault lookup that resolves only the example root. -/
def exampleVaultLookup : String → Option FSEntry :=
  fun s => if s = "root" then some exampleVault else none

/-- C9: for every vault whose root resolves to a directory, the walker
emits each path exactly as many times as there are file nodes carrying
it (so each regular file exactly once, and — since directory nodes are
not counted — a directory entry never appears); on the example tree
with `root/a.md`, `root/sub/b.md` and an empty directory it returns
exactly those two files. -/
theorem getAllFiles_files_exactly_once (lookup : String → Option FSEntry)
    (root d : String) (ch : List FSEntry)
    (h : lookup root = some (.dir d ch)) :
    (∀ q, (getAllFilesInFolder lookup root).count q = fileNodeCount q ch)
    ∧ (∀ q ∈ getAllFilesInFolder lookup root, 1 ≤ fileNodeCount q ch)
    ∧ getAllFilesInFolder exampleVaultLookup "root" =
        ["root/a.md", "root/sub/b.md"] := by
  have hwalk : getAllFilesInFolder lookup root = filesInChildren ch := by
    rw [getAllFilesInFolder, h]
  refine ⟨?_, ?_, ?_⟩
  · intro q
    rw [hwalk, count_filesInChildren]
  · intro q hq
    rw [hwalk] at hq
    have := List.count_pos_iff.2 hq
    rw [count_filesInChildren] at this
    omega
  · rw [getAllFilesInFolder]
    have hres : exampleVaultLookup "root" = some exampleVault := by
      simp [exampleVaultLookup]
    rw [hres, exampleVault]
    simp [filesInChildren]

/-- Witness for C9 on the example vault: `root/a.md` appears exactly
once and the walker returns exactly the two files. -/
theorem getAllFiles_files_exactly_once_witness :
    (getAllFilesInFolder exampleVaultLookup "root").count "root/a.md" =
      fileNodeCount "root/a.md"
        [.file "root/a.md",
         .dir "root/sub" [.file "root/sub/b.md"],
         .dir "root/empty" []]
    ∧ getAllFilesInFolder exampleVaultLookup "root" =
        ["root/a.md", "root/sub/b.md"] := by
  have h := getAllFiles_files_exactly_once exampleVaultLookup "root" "root"
    [.file "root/a.md",
     .dir "root/sub" [.file "root/sub/b.md"],
     .dir "root/empty" []]
    (by simp [exampleVaultLookup, exampleVault])
  exact ⟨h.1 "root/a.md", h.2.2⟩

end OneDriveSync
